import Mathlib

set_option maxRecDepth 10000

/-!
Shallow embedding of the device-metrics layer of the gtm repository
(devices.go). Go slices are Lean lists, Go strings are lists of
characters, float64 values are modelled as exact rationals (the decimal
inputs and the division by 100 used here are the only operations that
matter for the stated properties), and timestamps are integers counting
nanoseconds. A Go runtime panic (out-of-range slice index, nil-pointer
dereference) is modelled by the corresponding function returning none.
Each accessor that in Go reads and writes package-level variables is
modelled as a function from the relevant state, the current time and the
outcome of its external provider call to its result and the new state,
together with a boolean that records whether the provider was invoked
during the call.
-/

/-! ## Update intervals (devices.go, nanoseconds; time.Second = 1e9 ns) -/

def CPU_STATS_UPDATE_INTERVAL : Int := 1000000000

def DISK_STATS_UPDATE_INTERVAL : Int := 60000000000

def GPU_STATS_UPDATE_INTERVAL : Int := 1000000000

def MEM_STATS_UPDATE_INTERVAL : Int := 1000000000

/-! ## Filesystem type enumeration (Go iota constants; -1 is the unknown
sentinel returned by convertFSType) -/

def APFS : Int := 0

def exFAT : Int := 1

def FAT : Int := 2

def FAT32 : Int := 3

def EXT : Int := 4

def EXT2 : Int := 5

def EXT3 : Int := 6

def EXT4 : Int := 7

def NTFS : Int := 8

def JFS : Int := 9

def ZFS : Int := 10

/-- convertFSType from devices.go: exact match against the fixed list,
anything else maps to the sentinel -1. -/
def convertFSType (fsType : String) : Int :=
  match fsType with
  | "APFS" => APFS
  | "exFAT" => exFAT
  | "FAT" => FAT
  | "FAT32" => FAT32
  | "EXT" => EXT
  | "EXT2" => EXT2
  | "EXT3" => EXT3
  | "EXT4" => EXT4
  | "NTFS" => NTFS
  | "JFS" => JFS
  | "ZFS" => ZFS
  | _ => -1

/-! ## Go string helpers used by the GPU csv parsing -/

/-- Go strings.Split with a single-character separator. -/
def splitChar (sep : Char) : List Char → List (List Char)
  | [] => [[]]
  | c :: rest =>
    if c = sep then [] :: splitChar sep rest
    else
      match splitChar sep rest with
      | [] => [[c]]
      | t :: ts => (c :: t) :: ts

/-- Go strings.Split with the two-character separator made of a comma and
a space, the one used for the nvidia-smi csv rows. -/
def splitCS : List Char → List (List Char)
  | [] => [[]]
  | [c] => [[c]]
  | c1 :: c2 :: rest =>
    if c1 = ',' ∧ c2 = ' ' then [] :: splitCS rest
    else
      match splitCS (c2 :: rest) with
      | [] => [[c1]]
      | t :: ts => (c1 :: t) :: ts

/-- Go strings.ReplaceAll of the carriage-return character by the empty
string, which deletes every occurrence. -/
def removeCR (s : List Char) : List Char :=
  s.filter (fun c => c != '\r')

/-- Numeric value of a decimal digit character, none otherwise. -/
def digitVal (c : Char) : Option Nat :=
  if '0' ≤ c ∧ c ≤ '9' then some (c.toNat - 48) else none

def goDigitsAux : Nat → List Char → Option Nat
  | acc, [] => some acc
  | acc, c :: rest =>
    match digitVal c with
    | none => none
    | some d => goDigitsAux (acc * 10 + d) rest

/-- Digit-string payload of Go strconv parsing: none when the string is
empty or contains a non-digit character. -/
def goDigits (s : List Char) : Option Nat :=
  if s.isEmpty then none else goDigitsAux 0 s

/-- Failure kinds of the Go strconv conversions: ErrSyntax for malformed
text and ErrRange for values outside the requested bit size. -/
inductive NumErr where
  | malformed : NumErr
  | outOfRange : NumErr
deriving DecidableEq, Repr

/-- Optional leading sign of a Go strconv numeric string: the sign as an
integer together with the remaining characters. -/
def goSign : List Char → Int × List Char
  | '+' :: rest => (1, rest)
  | '-' :: rest => (-1, rest)
  | s => (1, s)

/-- Range handling of Go strconv.ParseInt with bit size 32: a value
outside the signed 32-bit range comes back saturated at the nearest
bound together with ErrRange. -/
def clamp32 (v : Int) : Int × Option NumErr :=
  if 2147483647 < v then (2147483647, some NumErr.outOfRange)
  else if v < -2147483648 then (-2147483648, some NumErr.outOfRange)
  else (v, none)

/-- Go strconv.ParseInt(s, 10, 32): an optional sign followed by decimal
digits. Malformed input yields the value 0; a value outside the 32-bit
range yields the saturated 32-bit bound; both come with the error kind,
and Go assigns that returned value to the target variable in every case. -/
def goParseInt32 (s : List Char) : Int × Option NumErr :=
  match goDigits (goSign s).2 with
  | none => (0, some NumErr.malformed)
  | some n => clamp32 ((goSign s).1 * (n : Int))

/-- Go strconv.ParseFloat(s, 64) restricted to plain decimal notation: an
optional sign and digits with at most one dot, with digits required on at
least one side of the dot. The value i.f with k fraction digits is the
exact rational (i * 10^k + f) / 10^k, built with mkRat, in place of the
IEEE-754 rounded double. The exponent, hexadecimal, infinity and
not-a-number forms accepted by Go, and its overflow-to-infinity
behaviour, are outside the scope of this model. none stands for a parse
error, in which case Go returns the value 0 to the caller. -/
def goParseFloat (s : List Char) : Option ℚ :=
  match splitChar '.' (goSign s).2 with
  | [ip] => (goDigits ip).map (fun n => mkRat ((goSign s).1 * (n : Int)) 1)
  | [ip, fp] =>
    if ip.isEmpty ∧ fp.isEmpty then none
    else
      match (if ip.isEmpty then some 0 else goDigits ip),
            (if fp.isEmpty then some 0 else goDigits fp) with
      | some i, some f =>
        some (mkRat ((goSign s).1 * ((i : Int) * (10 : Int) ^ fp.length + (f : Int)))
          ((10 : Nat) ^ fp.length))
      | _, _ => none
  | _ => none

/-! ## GPU sample records and the nvidia-smi csv row parsing -/

structure GPUStats where
  Id : Int
  Load : ℚ
  MemoryUsage : ℚ
  MemoryTotal : ℚ
  Power : ℚ
  Temperature : Int
deriving DecidableEq, Repr

/-- The package-level variables touched by parseGPUNvidiaStats: the cached
display name gpuInfo.Name and the sample slice gpuStats it appends to. -/
structure GPUParseState where
  gpuName : List Char
  gpuStats : List GPUStats
deriving DecidableEq, Repr

/-- Record built from one split csv row, mirroring the field conversions
inside the row loop of parseGPUNvidiaStats: the strconv return value is
assigned unconditionally (0 on malformed text, the saturated bound on
32-bit overflow), the two memory fields are reset to 0.0 on any parse
failure, the load percentage is divided by 100 (written with mkRat, the
kernel-friendly exact division), and the temperature field is read after
deleting carriage returns. -/
def mkGPURecord (data : List (List Char)) : GPUStats :=
  { Id := (goParseInt32 (data.getD 0 [])).1,
    Load := mkRat (goParseInt32 (data.getD 2 [])).1 100,
    MemoryUsage := (goParseFloat (data.getD 3 [])).getD 0,
    MemoryTotal := (goParseFloat (data.getD 4 [])).getD 0,
    Power := (goParseFloat (data.getD 5 [])).getD 0,
    Temperature := (goParseInt32 (removeCR (data.getD 6 []))).1 }

/-- One iteration of the row loop of parseGPUNvidiaStats over a non-empty
line. Go indexes data[0] through data[6] unconditionally, so a row that
splits into fewer than seven fields raises an out-of-range panic,
modelled as none. -/
def processLine (st : GPUParseState) (line : List Char) : Option GPUParseState :=
  let data := splitCS line
  match data.get? 1, data.get? 0, data.get? 2, data.get? 3,
        data.get? 4, data.get? 5, data.get? 6 with
  | some f1, some f0, some f2, some f3, some f4, some f5, some f6 =>
    some { gpuName := f1,
           gpuStats := st.gpuStats ++
             [{ Id := (goParseInt32 f0).1,
                Load := mkRat (goParseInt32 f2).1 100,
                MemoryUsage := (goParseFloat f3).getD 0,
                MemoryTotal := (goParseFloat f4).getD 0,
                Power := (goParseFloat f5).getD 0,
                Temperature := (goParseInt32 (removeCR f6)).1 }] }
  | _, _, _, _, _, _, _ => none

/-- The line loop of parseGPUNvidiaStats: empty lines are skipped, every
other line goes through the row parsing, and a row panic aborts the whole
call. -/
def parseLines : GPUParseState → List (List Char) → Option GPUParseState
  | st, [] => some st
  | st, l :: ls =>
    if l = [] then parseLines st ls
    else
      match processLine st l with
      | none => none
      | some st' => parseLines st' ls

/-- parseGPUNvidiaStats from devices.go: split the tool output into lines
and run the row loop. The Go function returns the package-level gpuStats
slice it appended to; here the returned state carries it. -/
def parseGPUNvidiaStats (st : GPUParseState) (output : List Char) : Option GPUParseState :=
  parseLines st (splitChar '\n' output)

/-! ## GetGPUStats -/

/-- The package-level variables read and written by GetGPUStats. -/
structure GPUFetchState where
  gpuName : List Char
  vendor : String
  gpuStats : List GPUStats
  lastFetchGPU : Int
deriving DecidableEq, Repr

/-- GetGPUStats from devices.go. nvidiaOutput is the outcome of
cmd.Output() for the nvidia-smi data query, none for a failed spawn or a
nonzero exit; the boolean of the result records whether that external
process was spawned during the call, and none in the second component is
a Go panic raised inside the csv parsing. On a failed query the function
returns nil without touching the cache or the timestamp. -/
def GetGPUStats (st : GPUFetchState) (now : Int) (nvidiaOutput : Option (List Char)) :
    Bool × Option (List GPUStats × GPUFetchState) :=
  if now - st.lastFetchGPU < GPU_STATS_UPDATE_INTERVAL ∧ st.gpuStats ≠ [] then
    (false, some (st.gpuStats, st))
  else if st.vendor = "nvidia" then
    match nvidiaOutput with
    | none => (true, some ([], st))
    | some data =>
      match parseGPUNvidiaStats ⟨st.gpuName, st.gpuStats⟩ data with
      | none => (true, none)
      | some ps =>
        (true, some (ps.gpuStats,
          { gpuName := ps.gpuName, vendor := st.vendor,
            gpuStats := ps.gpuStats, lastFetchGPU := now }))
  else if st.vendor = "amd" then
    (false, some (st.gpuStats, { st with lastFetchGPU := now }))
  else
    (false, some (st.gpuStats, st))

/-! ## HasGPU (GPU vendor probe) -/

/-- Exit outcomes of the two external presence-check tools: true when the
corresponding command runs and exits with code zero. -/
structure ProbeEnv where
  nvidiaOk : Bool
  rocmOk : Bool
deriving DecidableEq, Repr

/-- The package-level variables read and written by HasGPU: the memoized
hasGPU boolean and gpuInfo.Vendor. -/
structure GPUProbeState where
  hasGPU : Bool
  vendor : String
deriving DecidableEq, Repr

structure ProbeResult where
  result : Bool
  state : GPUProbeState
  probes : Nat
deriving DecidableEq, Repr

/-- HasGPU from devices.go; probes counts the external presence-check
tool invocations made during the call. -/
def HasGPU (st : GPUProbeState) (env : ProbeEnv) : ProbeResult :=
  if st.hasGPU then ⟨true, st, 0⟩
  else if env.nvidiaOk then ⟨true, ⟨true, "nvidia"⟩, 1⟩
  else if env.rocmOk then ⟨true, ⟨true, "amd"⟩, 2⟩
  else ⟨false, st, 2⟩

/-- Probe counts along a sequence of HasGPU calls, threading the state. -/
def probeTrace : GPUProbeState → List ProbeEnv → List Nat
  | _, [] => []
  | st, e :: es => (HasGPU st e).probes :: probeTrace (HasGPU st e).state es

/-! ## GetCPUStats -/

structure CPUStats where
  UsagePercent : ℚ
deriving DecidableEq, Repr

structure CPUFetchState where
  cpuStats : List CPUStats
  lastFetchCPU : Int
deriving DecidableEq, Repr

/-- GetCPUStats from devices.go. percentResult is the cpu.Percent
outcome, none for an error, which in gopsutil comes with a nil slice;
the source logs the error and then reads cpuPct[0] unconditionally, so
the error case is an out-of-range panic, modelled as none. The boolean
records whether the provider was invoked. -/
def GetCPUStats (st : CPUFetchState) (now : Int) (percentResult : Option (List ℚ)) :
    Bool × Option (List CPUStats × CPUFetchState) :=
  if st.cpuStats ≠ [] ∧ now - st.lastFetchCPU < CPU_STATS_UPDATE_INTERVAL then
    (false, some (st.cpuStats, st))
  else
    match (percentResult.getD []).get? 0 with
    | none => (true, none)
    | some p =>
      (true, some (st.cpuStats ++ [⟨p⟩], ⟨st.cpuStats ++ [⟨p⟩], now⟩))

/-! ## Virtual-disk classifier and GetDisksStats -/

def DRIVE_REMOVABLE : Nat := 2

def DRIVE_FIXED : Nat := 3

def DRIVE_REMOTE : Nat := 4

def DRIVE_CDROM : Nat := 5

def DRIVE_RAMDISK : Nat := 6

/-- isVirtualDisk from devices.go with the platform inputs made explicit:
goos is runtime.GOOS, driveType the windows.GetDriveType classification
for the path, ioCount the number of entries returned by the
disk.IOCounters query for the path. A failed UTF16 conversion is only
logged in the source and does not change the control flow. -/
def isVirtualDisk (goos : String) (driveType : Nat) (ioCount : Nat) : Bool :=
  if goos = "windows" then
    if driveType = DRIVE_RAMDISK then true
    else if driveType = DRIVE_FIXED then
      match ioCount with
      | 0 => true
      | _ => false
    else false
  else false

structure PartitionStat where
  Mountpoint : String
  Device : String
deriving DecidableEq, Repr

structure UsageStat where
  Fstype : String
  Free : Nat
  Used : Nat
  UsedPercent : ℚ
  Total : Nat
deriving DecidableEq, Repr

structure DiskStats where
  Mountpoint : String
  Device : String
  FSType : Int
  IsVirtualDisk : Bool
  Free : Nat
  Used : Nat
  UsedPercent : ℚ
  Total : Nat
deriving DecidableEq, Repr

/-- math.Round from the Go standard library: nearest integer, rounding
half away from zero. -/
def goMathRound (q : ℚ) : ℚ :=
  if 0 ≤ q then ((⌊q + 1/2⌋ : Int) : ℚ) else -((⌊-q + 1/2⌋ : Int) : ℚ)

/-- OS collaborators of GetDisksStats, keyed by mount point: the
disk.Partitions outcome (none for an error, which comes with a nil
slice), the disk.Usage outcome per mount point (absent key for an
error), and the platform inputs of the virtual-disk classifier. -/
structure DiskEnv where
  partitions : Option (List PartitionStat)
  usages : List (String × UsageStat)
  goos : String
  driveTypes : List (String × Nat)
  ioCounts : List (String × Nat)
deriving DecidableEq, Repr

/-- Per-partition body of the GetDisksStats loop. On a failed disk.Usage
call the source logs usage.String() on the nil pointer, a Go nil
dereference modelled as none. -/
def diskStatsFor (env : DiskEnv) (dsk : PartitionStat) : Option DiskStats :=
  match env.usages.lookup dsk.Mountpoint with
  | none => none
  | some u =>
    some { Mountpoint := dsk.Mountpoint, Device := dsk.Device,
           FSType := convertFSType u.Fstype,
           IsVirtualDisk := isVirtualDisk env.goos
             ((env.driveTypes.lookup dsk.Mountpoint).getD 0)
             ((env.ioCounts.lookup dsk.Mountpoint).getD 0),
           Free := u.Free, Used := u.Used,
           UsedPercent := goMathRound (u.UsedPercent * 100 / 100) / 100,
           Total := u.Total }

structure DiskFetchState where
  disksStats : List DiskStats
  lastFetchDisk : Int
deriving DecidableEq, Repr

/-- GetDisksStats from devices.go; the boolean records whether the
disk.Partitions provider was invoked. -/
def GetDisksStats (st : DiskFetchState) (now : Int) (env : DiskEnv) :
    Bool × Option (List DiskStats × DiskFetchState) :=
  if now - st.lastFetchDisk < DISK_STATS_UPDATE_INTERVAL ∧ st.disksStats ≠ [] then
    (false, some (st.disksStats, st))
  else
    match (env.partitions.getD []).mapM (diskStatsFor env) with
    | none => (true, none)
    | some l => (true, some (l, ⟨l, now⟩))

/-! ## GetMemoryStats -/

structure VirtualMemoryStat where
  Total : Nat
  Available : Nat
  Used : Nat
  UsedPercent : ℚ
deriving DecidableEq, Repr

structure MemFetchState where
  memInfo : Option VirtualMemoryStat
  lastFetchMem : Int
deriving DecidableEq, Repr

/-- GetMemoryStats from devices.go. fetch is the mem.VirtualMemory
outcome, none for an error, which leaves a nil pointer. The String call
on a nil cached pointer inside the freshness guard, and the UsedPercent
field access on a nil fresh pointer, are Go nil dereferences modelled as
none; the String rendering of a present record is never empty, so for a
cached record the length guard is always satisfied. The boolean records
whether the provider was invoked. -/
def GetMemoryStats (st : MemFetchState) (now : Int) (fetch : Option VirtualMemoryStat) :
    Bool × Option (Option VirtualMemoryStat × MemFetchState) :=
  if now - st.lastFetchMem < MEM_STATS_UPDATE_INTERVAL then
    match st.memInfo with
    | none => (false, none)
    | some m => (false, some (some m, st))
  else
    match st.memInfo with
    | none => (true, some (fetch, ⟨fetch, now⟩))
    | some old =>
      match fetch with
      | none => (true, none)
      | some newRec =>
        if old.UsedPercent = newRec.UsedPercent then
          (true, some (some old, ⟨some old, now⟩))
        else
          (true, some (some newRec, ⟨some newRec, now⟩))

/-! ## Helper lemmas -/

theorem processLine_of_len7 (st : GPUParseState) (line : List Char)
    (h : 7 ≤ (splitCS line).length) :
    processLine st line =
      some ⟨(splitCS line).getD 1 [], st.gpuStats ++ [mkGPURecord (splitCS line)]⟩ := by
  rcases hs : splitCS line with _ | ⟨a, _ | ⟨b, _ | ⟨c, _ | ⟨d, _ | ⟨e, _ | ⟨f0, _ | ⟨g, t⟩⟩⟩⟩⟩⟩⟩ <;>
    rw [hs] at h
  all_goals try (exfalso; simp at h; done)
  simp [processLine, mkGPURecord, hs, List.getD]

theorem parseLines_isSome (ls : List (List Char)) :
    ∀ st : GPUParseState, (∀ l ∈ ls, l ≠ [] → 7 ≤ (splitCS l).length) →
      (parseLines st ls).isSome = true := by
  induction ls with
  | nil => intro st _; rfl
  | cons l ls ih =>
    intro st h
    by_cases hl : l = []
    · rw [parseLines, if_pos hl]
      exact ih st (fun x hx => h x (List.mem_cons_of_mem _ hx))
    · have h7 := h l (List.mem_cons_self _ _) hl
      rw [parseLines, if_neg hl, processLine_of_len7 st l h7]
      exact ih _ (fun x hx => h x (List.mem_cons_of_mem _ hx))

theorem goParseInt32_eq_none (s : List Char) (hd : goDigits (goSign s).2 = none) :
    goParseInt32 s = (0, some NumErr.malformed) := by
  unfold goParseInt32
  rw [hd]

theorem goParseInt32_eq_some (s : List Char) (n : Nat)
    (hd : goDigits (goSign s).2 = some n) :
    goParseInt32 s = clamp32 ((goSign s).1 * (n : Int)) := by
  unfold goParseInt32
  rw [hd]

/-! ## Claim theorems -/

/-- Claim C5 is false as stated: the parser is not total. On the output
consisting of the single non-empty line x, which splits into one field,
the row loop reads data[1] out of range, a Go runtime panic that
terminates the calling process, modelled here as none. -/
theorem parseGPUNvidiaStats_short_row_panics :
    parseGPUNvidiaStats ⟨[], []⟩ ("x".toList) = none := by decide

/-- Claim C5 as amended: for every byte string whose non-empty lines each
split into at least seven comma-space separated fields, the parser
returns a result (a record list) without any out-of-range access; a
non-empty line with fewer than seven fields instead raises the
out-of-range panic exhibited by the counterexample. -/
theorem parseGPUNvidiaStats_total_on_wide_rows (st : GPUParseState) (output : List Char)
    (h : ∀ l ∈ splitChar '\n' output, l ≠ [] → 7 ≤ (splitCS l).length) :
    (parseGPUNvidiaStats st output).isSome = true := by
  unfold parseGPUNvidiaStats
  exact parseLines_isSome _ st h

theorem parseGPUNvidiaStats_total_on_wide_rows_witness :
    (parseGPUNvidiaStats ⟨[], []⟩ ("0, A, 42, 1024, 10240, 215.50, 65".toList)).isSome = true :=
  parseGPUNvidiaStats_total_on_wide_rows ⟨[], []⟩ _ (by decide)

/-- Claim C6 is false as stated: in the row below the index field fails
to parse (strconv.ParseInt reports a range error for 9999999999 with bit
size 32), yet the resulting record holds the saturated bound 2147483647
rather than a defaulted zero value; the remaining fields parse normally
and the row is kept. -/
theorem processLine_overflow_id_not_zero :
    processLine ⟨[], []⟩ ("9999999999, A, 42, 1024, 10240, 215.50, 65".toList) =
      some ⟨"A".toList, [⟨2147483647, mkRat 42 100, 1024, 10240, mkRat 431 2, 65⟩]⟩ ∧
    (goParseInt32 ("9999999999".toList)).2 = some NumErr.outOfRange ∧
    (2147483647 : Int) ≠ 0 := by decide

/-- Claim C6 as amended: every row with at least seven fields yields
exactly one appended record and is never dropped, with each field
converted independently of the others: a field holds the strconv return
value, which is the parsed value on success and 0 on malformed text, but
the saturated 32-bit bound - not a defaulted zero - when an integer field
is numeric yet out of the 32-bit range; the two memory fields are reset
to 0 on any parse failure (visible in mkGPURecord through the getD 0
fallback), and the temperature is converted after stripping carriage
returns. -/
theorem processLine_row_never_dropped (st : GPUParseState) (line : List Char)
    (h : 7 ≤ (splitCS line).length) :
    processLine st line =
      some ⟨(splitCS line).getD 1 [], st.gpuStats ++ [mkGPURecord (splitCS line)]⟩ ∧
    (∀ s : List Char, (goParseInt32 s).2 = some NumErr.malformed → (goParseInt32 s).1 = 0) ∧
    (∀ s : List Char, (goParseInt32 s).2 = some NumErr.outOfRange →
      (goParseInt32 s).1 = 2147483647 ∨ (goParseInt32 s).1 = -2147483648) ∧
    (∀ s : List Char, goParseFloat s = none → (goParseFloat s).getD 0 = 0) := by
  refine ⟨processLine_of_len7 st line h, ?_, ?_, ?_⟩
  · intro s hs
    rcases hd : goDigits (goSign s).2 with _ | n
    · rw [goParseInt32_eq_none s hd]
    · rw [goParseInt32_eq_some s n hd] at hs ⊢
      unfold clamp32 at hs ⊢
      split_ifs at hs ⊢ <;> simp_all
  · intro s hs
    rcases hd : goDigits (goSign s).2 with _ | n
    · rw [goParseInt32_eq_none s hd] at hs
      simp at hs
    · rw [goParseInt32_eq_some s n hd] at hs ⊢
      unfold clamp32 at hs ⊢
      split_ifs at hs ⊢ <;> simp_all
  · intro s hs
    rw [hs]
    rfl

theorem processLine_row_never_dropped_witness :
    processLine ⟨[], []⟩ ("7, A, xx, zz, 10240, 215.50, 65".toList) =
      some ⟨(splitCS ("7, A, xx, zz, 10240, 215.50, 65".toList)).getD 1 [],
        [] ++ [mkGPURecord (splitCS ("7, A, xx, zz, 10240, 215.50, 65".toList))]⟩ ∧
    (goParseInt32 ("xx".toList)).1 = 0 ∧
    ((goParseInt32 ("99999999999".toList)).1 = 2147483647 ∨
      (goParseInt32 ("99999999999".toList)).1 = -2147483648) ∧
    (goParseFloat ("zz".toList)).getD 0 = 0 :=
  ⟨(processLine_row_never_dropped ⟨[], []⟩ _ (by decide)).1,
   (processLine_row_never_dropped ⟨[], []⟩ ("7, A, xx, zz, 10240, 215.50, 65".toList)
      (by decide)).2.1 _ (by decide),
   (processLine_row_never_dropped ⟨[], []⟩ ("7, A, xx, zz, 10240, 215.50, 65".toList)
      (by decide)).2.2.1 _ (by decide),
   (processLine_row_never_dropped ⟨[], []⟩ ("7, A, xx, zz, 10240, 215.50, 65".toList)
      (by decide)).2.2.2 _ (by decide)⟩

/-- Claim C7: parsing the well-formed single row
0, NVIDIA GeForce RTX 3080, 42, 1024, 10240, 215.50, 65 with a trailing
carriage return yields exactly one record with card index 0, load
fraction 42/100, memory-used 1024, memory-total 10240, power 215.5 and
temperature 65, the carriage return being stripped rather than failing
the parse; the device name is cached as the GPU display name. -/
theorem parseGPUNvidiaStats_wellformed_row :
    parseGPUNvidiaStats ⟨[], []⟩
        ("0, NVIDIA GeForce RTX 3080, 42, 1024, 10240, 215.50, 65\r".toList) =
      some ⟨"NVIDIA GeForce RTX 3080".toList,
        [⟨0, mkRat 42 100, 1024, 10240, mkRat 431 2, 65⟩]⟩ ∧
    (mkRat 42 100 : ℚ) = 42 / 100 ∧ (mkRat 431 2 : ℚ) = 215.50 := by
  refine ⟨by decide, ?_, ?_⟩ <;> norm_num [Rat.divInt_eq_div]

/-- Claim C1 is right and the code is wrong (code bug): with a cached CPU
sample present and a stale cache, a failing cpu.Percent call (nil slice
with an error) drives GetCPUStats into the unconditional cpuPct[0] read,
an out-of-range runtime panic propagated to the caller - modelled by the
none result - instead of the cached value the specification requires. -/
theorem getCPUStats_provider_failure_panics :
    GetCPUStats ⟨[⟨50⟩], 0⟩ 2000000000 none = (true, none) := by decide

/-- Claim C2 is right and the code is wrong (code bug): parseGPUNvidiaStats
appends to the package-level sample slice instead of rebuilding it, so
the second refresh returns two records although its tool output holds
exactly one non-empty card row; the earlier revision of this file used a
fresh local slice at this point. -/
theorem getGPUStats_accumulates_across_refreshes :
    GetGPUStats ⟨[], "nvidia", [], 0⟩ 2000000000
        (some ("0, A, 42, 1024, 10240, 215.50, 65".toList)) =
      (true, some ([⟨0, mkRat 42 100, 1024, 10240, mkRat 431 2, 65⟩],
        ⟨"A".toList, "nvidia", [⟨0, mkRat 42 100, 1024, 10240, mkRat 431 2, 65⟩],
          2000000000⟩)) ∧
    GetGPUStats ⟨"A".toList, "nvidia", [⟨0, mkRat 42 100, 1024, 10240, mkRat 431 2, 65⟩],
          2000000000⟩ 4000000000
        (some ("0, A, 42, 1024, 10240, 215.50, 65".toList)) =
      (true, some ([⟨0, mkRat 42 100, 1024, 10240, mkRat 431 2, 65⟩,
          ⟨0, mkRat 42 100, 1024, 10240, mkRat 431 2, 65⟩],
        ⟨"A".toList, "nvidia",
          [⟨0, mkRat 42 100, 1024, 10240, mkRat 431 2, 65⟩,
            ⟨0, mkRat 42 100, 1024, 10240, mkRat 431 2, 65⟩], 4000000000⟩)) ∧
    ((splitChar '\n' ("0, A, 42, 1024, 10240, 215.50, 65".toList)).filter
      (fun l => !l.isEmpty)).length = 1 := by decide

/-- Claim C3: cache freshness of the CPU and disk accessors. When a cached
value exists and less than the update interval elapsed since the last
recorded fetch, the accessor returns the cached value and does not invoke
the provider; when no cached value exists or at least the interval
elapsed, it invokes the provider again. -/
theorem cache_freshness_cpu_disk (stc : CPUFetchState) (pr : Option (List ℚ))
    (std : DiskFetchState) (env : DiskEnv) (now : Int) :
    (stc.cpuStats ≠ [] ∧ now - stc.lastFetchCPU < CPU_STATS_UPDATE_INTERVAL →
      GetCPUStats stc now pr = (false, some (stc.cpuStats, stc))) ∧
    (stc.cpuStats = [] ∨ CPU_STATS_UPDATE_INTERVAL ≤ now - stc.lastFetchCPU →
      (GetCPUStats stc now pr).1 = true) ∧
    (std.disksStats ≠ [] ∧ now - std.lastFetchDisk < DISK_STATS_UPDATE_INTERVAL →
      GetDisksStats std now env = (false, some (std.disksStats, std))) ∧
    (std.disksStats = [] ∨ DISK_STATS_UPDATE_INTERVAL ≤ now - std.lastFetchDisk →
      (GetDisksStats std now env).1 = true) := by
  refine ⟨?_, ?_, ?_, ?_⟩
  · intro hcond
    unfold GetCPUStats
    rw [if_pos hcond]
  · intro h
    have hng : ¬(stc.cpuStats ≠ [] ∧ now - stc.lastFetchCPU < CPU_STATS_UPDATE_INTERVAL) := by
      rcases h with h | h
      · exact fun hc => hc.1 h
      · exact fun hc => absurd hc.2 (by omega)
    unfold GetCPUStats
    rw [if_neg hng]
    rcases (pr.getD []).get? 0 with _ | p <;> rfl
  · intro hcond
    unfold GetDisksStats
    rw [if_pos ⟨hcond.2, hcond.1⟩]
  · intro h
    have hng : ¬(now - std.lastFetchDisk < DISK_STATS_UPDATE_INTERVAL ∧ std.disksStats ≠ []) := by
      rcases h with h | h
      · exact fun hc => hc.2 h
      · exact fun hc => absurd hc.1 (by omega)
    unfold GetDisksStats
    rw [if_neg hng]
    rcases (env.partitions.getD []).mapM (diskStatsFor env) with _ | l <;> rfl

theorem cache_freshness_cpu_disk_witness :
    GetCPUStats ⟨[⟨50⟩], 0⟩ 500000000 none = (false, some ([⟨50⟩], ⟨[⟨50⟩], 0⟩)) ∧
    (GetCPUStats ⟨[], 0⟩ 500000000 (some [30])).1 = true ∧
    GetDisksStats ⟨[⟨"C:", "C:", 8, false, 1, 1, mkRat 1 2, 2⟩], 0⟩ 500000000
        ⟨none, [], "linux", [], []⟩ =
      (false, some ([⟨"C:", "C:", 8, false, 1, 1, mkRat 1 2, 2⟩],
        ⟨[⟨"C:", "C:", 8, false, 1, 1, mkRat 1 2, 2⟩], 0⟩)) ∧
    (GetDisksStats ⟨[], 0⟩ 500000000 ⟨none, [], "linux", [], []⟩).1 = true :=
  ⟨(cache_freshness_cpu_disk ⟨[⟨50⟩], 0⟩ none ⟨[], 0⟩ ⟨none, [], "linux", [], []⟩
      500000000).1 ⟨by decide, by decide⟩,
   (cache_freshness_cpu_disk ⟨[], 0⟩ (some [30]) ⟨[], 0⟩ ⟨none, [], "linux", [], []⟩
      500000000).2.1 (Or.inl rfl),
   (cache_freshness_cpu_disk ⟨[], 0⟩ none
      ⟨[⟨"C:", "C:", 8, false, 1, 1, mkRat 1 2, 2⟩], 0⟩ ⟨none, [], "linux", [], []⟩
      500000000).2.2.1 ⟨by decide, by decide⟩,
   (cache_freshness_cpu_disk ⟨[], 0⟩ none ⟨[], 0⟩ ⟨none, [], "linux", [], []⟩
      500000000).2.2.2 (Or.inl rfl)⟩

/-- Claim C4: memory change detection. On a stale cache with a cached
record, a successful refresh whose used-percent equals the cached
used-percent returns the previously cached record instance and leaves it
cached; a differing used-percent makes the new sample replace the cache
and be returned. In both cases the provider was invoked and the fetch
timestamp advances. -/
theorem getMemoryStats_change_detection (st : MemFetchState) (now : Int)
    (old newRec : VirtualMemoryStat) (hm : st.memInfo = some old)
    (hstale : MEM_STATS_UPDATE_INTERVAL ≤ now - st.lastFetchMem) :
    (old.UsedPercent = newRec.UsedPercent →
      GetMemoryStats st now (some newRec) = (true, some (some old, ⟨some old, now⟩))) ∧
    (old.UsedPercent ≠ newRec.UsedPercent →
      GetMemoryStats st now (some newRec) =
        (true, some (some newRec, ⟨some newRec, now⟩))) := by
  have hng : ¬(now - st.lastFetchMem < MEM_STATS_UPDATE_INTERVAL) := by omega
  unfold GetMemoryStats
  rw [if_neg hng, hm]
  constructor
  · intro he
    simp [he]
  · intro hne
    simp [hne]

theorem getMemoryStats_change_detection_witness :
    GetMemoryStats ⟨some ⟨16, 8, 8, 50⟩, 0⟩ 2000000000 (some ⟨16, 9, 7, 50⟩) =
      (true, some (some ⟨16, 8, 8, 50⟩, ⟨some ⟨16, 8, 8, 50⟩, 2000000000⟩)) ∧
    GetMemoryStats ⟨some ⟨16, 8, 8, 50⟩, 0⟩ 2000000000 (some ⟨16, 4, 12, 75⟩) =
      (true, some (some ⟨16, 4, 12, 75⟩, ⟨some ⟨16, 4, 12, 75⟩, 2000000000⟩)) :=
  ⟨(getMemoryStats_change_detection ⟨some ⟨16, 8, 8, 50⟩, 0⟩ 2000000000 ⟨16, 8, 8, 50⟩
      ⟨16, 9, 7, 50⟩ rfl (by decide)).1 rfl,
   (getMemoryStats_change_detection ⟨some ⟨16, 8, 8, 50⟩, 0⟩ 2000000000 ⟨16, 8, 8, 50⟩
      ⟨16, 4, 12, 75⟩ rfl (by decide)).2 (by decide)⟩

theorem hasGPU_true_noop (st : GPUProbeState) (e : ProbeEnv) (h : st.hasGPU = true) :
    HasGPU st e = ⟨true, st, 0⟩ := by
  unfold HasGPU
  rw [if_pos h]

theorem probeTrace_zero_of_hasGPU (st : GPUProbeState) (h : st.hasGPU = true)
    (envs : List ProbeEnv) : probeTrace st envs = List.replicate envs.length 0 := by
  induction envs with
  | nil => rfl
  | cons e es ih =>
    rw [probeTrace, hasGPU_true_noop st e h]
    show 0 :: probeTrace st es = List.replicate (es.length + 1) 0
    rw [List.replicate_succ, ih]

theorem hasGPU_result_true_state (st : GPUProbeState) (e : ProbeEnv)
    (h : (HasGPU st e).result = true) : (HasGPU st e).state.hasGPU = true := by
  unfold HasGPU at h ⊢
  split_ifs at h ⊢ <;> simp_all

/-- Claim C8: GPU vendor probe memoization. After a call that detected a
vendor (returned true), no later call in any sequence invokes the
external presence-check tools again (every probe count is 0); after a
call that detected no vendor (returned false), the probe state - hence
the vendor slot - is left exactly as it was with the memoization flag
still unset, so the next call probes the external tools again. -/
theorem hasGPU_memoization (st : GPUProbeState) (e : ProbeEnv) (envs : List ProbeEnv)
    (e2 : ProbeEnv) :
    ((HasGPU st e).result = true →
      probeTrace (HasGPU st e).state envs = List.replicate envs.length 0) ∧
    ((HasGPU st e).result = false →
      (HasGPU st e).state = st ∧ (HasGPU st e).state.hasGPU = false ∧
        1 ≤ (HasGPU (HasGPU st e).state e2).probes) := by
  constructor
  · intro h
    exact probeTrace_zero_of_hasGPU _ (hasGPU_result_true_state st e h) envs
  · intro h
    unfold HasGPU at h ⊢
    split_ifs at h ⊢ <;> simp_all

theorem hasGPU_memoization_witness :
    probeTrace (HasGPU ⟨false, ""⟩ ⟨true, false⟩).state [⟨false, false⟩, ⟨true, true⟩] =
      List.replicate 2 0 ∧
    ((HasGPU ⟨false, ""⟩ ⟨false, false⟩).state = ⟨false, ""⟩ ∧
      (HasGPU ⟨false, ""⟩ ⟨false, false⟩).state.hasGPU = false ∧
      1 ≤ (HasGPU (HasGPU ⟨false, ""⟩ ⟨false, false⟩).state ⟨true, false⟩).probes) :=
  ⟨(hasGPU_memoization ⟨false, ""⟩ ⟨true, false⟩ [⟨false, false⟩, ⟨true, true⟩]
      ⟨true, false⟩).1 (by decide),
   (hasGPU_memoization ⟨false, ""⟩ ⟨false, false⟩ [] ⟨true, false⟩).2 (by decide)⟩

/-- Claim C9: the virtual-disk classifier returns true on the windows
platform exactly when the drive type is the RAM-disk classification, or
it is the fixed-disk classification and the I/O-counters query returned
zero entries; a fixed classification with entries, every other
classification, and every other platform yield false. -/
theorem isVirtualDisk_classification (goos : String) (dt n : Nat) :
    (isVirtualDisk "windows" dt n = true ↔
      dt = DRIVE_RAMDISK ∨ (dt = DRIVE_FIXED ∧ n = 0)) ∧
    (goos ≠ "windows" → isVirtualDisk goos dt n = false) := by
  constructor
  · unfold isVirtualDisk
    rw [if_pos rfl]
    split_ifs with h1 h2
    · simp [h1]
    · cases n <;> simp_all [DRIVE_RAMDISK, DRIVE_FIXED]
    · simp_all
  · intro h
    unfold isVirtualDisk
    rw [if_neg h]

theorem isVirtualDisk_classification_witness :
    isVirtualDisk "linux" 6 0 = false :=
  (isVirtualDisk_classification "linux" 6 0).2 (by decide)

/-- Claim C10: with the GPU vendor state unset (the probe never called or
never successful), every GetGPUStats call spawns no external process,
leaves the cached samples and the fetch timestamp untouched, and returns
the currently cached sample slice, nil before the first successful
refresh. -/
theorem getGPUStats_no_vendor_noop (st : GPUFetchState) (now : Int)
    (out : Option (List Char)) (h : st.vendor = "") :
    GetGPUStats st now out = (false, some (st.gpuStats, st)) := by
  unfold GetGPUStats
  have h1 : ¬ st.vendor = "nvidia" := by rw [h]; decide
  have h2 : ¬ st.vendor = "amd" := by rw [h]; decide
  rw [if_neg h1, if_neg h2]
  split_ifs <;> rfl

theorem getGPUStats_no_vendor_noop_witness :
    GetGPUStats ⟨[], "", [], 0⟩ 5000000000 none = (false, some ([], ⟨[], "", [], 0⟩)) :=
  getGPUStats_no_vendor_noop ⟨[], "", [], 0⟩ 5000000000 none rfl
